import Mathlib

/-!
Shallow embedding of `src/app.py` (Adverse Event Checker).

The program extracts medication and symptom mentions from text with two
word-boundary regexes, queries the openFDA adverse-event endpoint per
medication, and intersects each medication's reaction terms with the
detected symptoms.

Modelling conventions:
* Python strings are Lean `String`s; `str.lower` is modelled character-wise
  with `Char.toLower` (both lower exactly the ASCII range `A`–`Z`; Python's
  `str.lower` also maps non-ASCII letters, so the model covers the ASCII
  fragment, which contains both vocabularies and all pattern-relevant text).
* `re.findall(r"\b(t1|...|tn)\b", text)` with word-only alternatives: a
  whole-word match of an all-word-character alternative spans a maximal run
  of word characters, so distinct matches never overlap and
  `set(re.findall(...))` is exactly the set of vocabulary terms that occur
  somewhere in the text delimited by word boundaries.  `wordMatchAt` states
  the regex's `\b`-anchored occurrence condition at one position (`\w` is
  `[A-Za-z0-9_]` on the ASCII fragment).
* `list(set(...))` iterates a Python set in unspecified order; the model
  returns the deduplicated matches in vocabulary order, which carries the
  same set of elements.
* Network and speech I/O are external collaborators: a remote is a function
  from the request the code builds to an outcome (an exception raised
  anywhere inside the `try` block, or an HTTP response with a status and a
  parsed `results` array), consumed exactly once per call.  Calls to
  `st.error` are modelled as an `Option String` "surfaced warning" component.
-/

namespace App

/-- The alternatives of `MEDICATION_PATTERN` (src/app.py line 17), in order. -/
def medicationVocab : List String :=
  ["aspirin", "lisinopril", "metformin", "warfarin", "atorvastatin",
   "ibuprofen", "paracetamol"]

/-- The alternatives of `SYMPTOM_PATTERN` (src/app.py line 18), in order. -/
def symptomVocab : List String :=
  ["cough", "nausea", "dizziness", "rash", "headache", "vomiting",
   "fatigue", "swelling"]

/-- Python regex `\w` on the ASCII fragment: `[A-Za-z0-9_]`. -/
def isWordChar (c : Char) : Bool :=
  c.isAlphanum || c = '_'

/-- Model of Python `str.lower` (ASCII fragment): lower every character. -/
def pyLower (s : String) : String :=
  ⟨s.data.map Char.toLower⟩

/-- The regex condition `\b t \b` holds at position `i` of `s`: the
characters of `t` occur at `i`, preceded and followed by a word boundary
(start/end of string or a non-word character). -/
def wordMatchAt (t s : List Char) (i : Nat) : Bool :=
  ((s.drop i).take t.length == t)
    && (i == 0 || !isWordChar (s.getD (i - 1) ' '))
    && (i + t.length == s.length || !isWordChar (s.getD (i + t.length) ' '))

/-- `t` occurs somewhere in `s` delimited by word boundaries: the condition
under which `re.findall` reports the alternative `t`. -/
def matchesWholeWord (t s : String) : Bool :=
  (List.range (s.data.length + 1)).any (fun i => wordMatchAt t.data s.data i)

/-- Model of `extract_entities` (src/app.py lines 37–42): lowercase the
text, collect the vocabulary terms found by the two whole-word regexes,
deduplicated (`list(set(...))`; the model fixes vocabulary order). -/
def extract_entities (text : String) : List String × List String :=
  let lowered := pyLower text
  (medicationVocab.filter (fun m => matchesWholeWord m lowered),
   symptomVocab.filter (fun m => matchesWholeWord m lowered))

/-- The query `requests.get` sends (src/app.py lines 47–55): fixed endpoint,
search/count parameters, `limit = 5`, `timeout = 10`. -/
structure FdaRequest where
  url : String
  search : String
  count : String
  limit : Nat
  timeout : Nat
deriving DecidableEq

/-- One element of the response's `results` array, exposing a `term` field. -/
structure FdaItem where
  term : String
deriving DecidableEq

/-- What the remote call can produce: an exception raised anywhere inside
the `try` block (network error, timeout, malformed payload), or a response
with an HTTP status and a parsed `results` array. -/
inductive FdaOutcome where
  | exception (msg : String)
  | response (status : Nat) (results : List FdaItem)
deriving DecidableEq

/-- The request `get_fda_events` builds for a medication (src/app.py
lines 47–55). -/
def mkFdaRequest (medication : String) : FdaRequest :=
  ⟨"https://api.fda.gov/drug/event.json",
   "patient.drug.medicinalproduct:\"" ++ medication ++ "\"",
   "patient.reaction.reactionmeddrapt.exact",
   5, 10⟩

/-- Processing of one outcome by `get_fda_events` (src/app.py lines 46–61):
status 200 returns the lowercased `term` of every result item; any other
status returns `[]` silently; an exception returns `[]` and surfaces
`st.error(f"FDA API Error: ...")`, modelled as the second component. -/
def fdaEventsOf (outcome : FdaOutcome) : List String × Option String :=
  match outcome with
  | .exception msg => ([], some ("FDA API Error: " ++ msg))
  | .response status results =>
      if status = 200 then (results.map (fun item => pyLower item.term), none)
      else ([], none)

/-- Model of `get_fda_events` (src/app.py lines 44–61): build the request,
send it once to the remote, process the outcome. -/
def get_fda_events (medication : String) (remote : FdaRequest → FdaOutcome) :
    List String × Option String :=
  fdaEventsOf (remote (mkFdaRequest medication))

/-- Model of Python `str.capitalize` (ASCII fragment): uppercase the first
character, lowercase the rest (src/app.py line 93 applies it to the
already-lowercase extracted medication). -/
def pyCapitalize (s : String) : String :=
  match s.data with
  | [] => ""
  | c :: cs => ⟨c.toUpper :: cs.map Char.toLower⟩

/-- What the per-medication expander displays (src/app.py lines 97–110). -/
inductive MedReport where
  | noData
  | adverseMatch (matchingTerms : List String) (adverseEvents : List String)
  | noMatch (adverseEvents : List String)
deriving DecidableEq

/-- The list comprehension `[s for s in symptoms if s in adverse_events]`
(src/app.py line 101). -/
def crossRefMatches (symptoms adverse_events : List String) : List String :=
  symptoms.filter (fun s => adverse_events.contains s)

/-- The per-medication branch of the analysis loop (src/app.py
lines 97–110): empty adverse-event list reports no data and skips the
intersection; otherwise a non-empty intersection is flagged with its
matching terms, an empty one reports no match; both show the full list. -/
def analyzeMed (symptoms adverse_events : List String) : MedReport :=
  if adverse_events.isEmpty then .noData
  else
    let found := crossRefMatches symptoms adverse_events
    if found.isEmpty then .noMatch adverse_events
    else .adverseMatch found adverse_events

/-- Outcome of the analysis section (src/app.py lines 83–110). -/
inductive AnalysisResult where
  | noMedications
  | results (reports : List (String × MedReport))
deriving DecidableEq

/-- Model of the analysis section (src/app.py lines 83–110): extract
entities; with no medications warn distinctly and stop; otherwise analyze
each medication after capitalizing it, fetching its adverse events from the
remote. -/
def analyze (text : String) (remote : FdaRequest → FdaOutcome) :
    AnalysisResult :=
  let meds := (extract_entities text).1
  let symptoms := (extract_entities text).2
  if meds.isEmpty then .noMedications
  else .results (meds.map (fun med0 =>
    let med := pyCapitalize med0
    (med, analyzeMed symptoms (get_fda_events med remote).1)))

/-- The per-medication reports of an analysis outcome (empty when no
medications were detected). -/
def analysisReports : AnalysisResult → List (String × MedReport)
  | .noMedications => []
  | .results reports => reports

/-- One recognition result dict produced by the recognizer, with its
optional `"text"` field (src/app.py lines 26–30). -/
structure RecResult where
  text : Option String
deriving DecidableEq

/-- The join on src/app.py line 32:
`" ".join([res.get("text", "") for res in results if res.get("text")])`
(`res.get("text")` is falsy exactly when the field is absent or empty). -/
def joinTranscripts (results : List RecResult) : String :=
  String.intercalate " "
    ((results.filter (fun r => r.text.getD "" ≠ "")).map
      (fun r => r.text.getD ""))

/-- Model of `transcribe_audio` (src/app.py lines 20–35).  Decoding the
audio and running the recognizer are external collaborators; their combined
effect is either an exception (caught: return `""` and surface
`st.error(f"Transcription failed: ...")`) or the sequence of recognition
result dicts accumulated from `AcceptWaveform`/`FinalResult`. -/
def transcribe_audio (audio : Except String (List RecResult)) :
    String × Option String :=
  match audio with
  | .error e => ("", some ("Transcription failed: " ++ e))
  | .ok results => (joinTranscripts results, none)

/-- Spec-side description (§6 of the spec): the non-empty `"text"` fields of
the successive partial/final recognition results, in order. -/
def nonEmptyTexts (results : List RecResult) : List String :=
  results.filterMap (fun r => r.text.bind (fun s => if s = "" then none else some s))

/-! Helper lemmas shared by the claim theorems. -/

theorem extract_entities_fst (text : String) :
    (extract_entities text).1
      = medicationVocab.filter (fun m => matchesWholeWord m (pyLower text)) :=
  rfl

theorem extract_entities_snd (text : String) :
    (extract_entities text).2
      = symptomVocab.filter (fun m => matchesWholeWord m (pyLower text)) :=
  rfl

/-! ### C1: soundness of `extract_entities` -/

/-- C1.  For every input text, `extract_entities` returns a medication list
and a symptom list that are subsets of the fixed vocabularies, containing
only terms present as whole words (word-boundary anchored) in the lowercased
input; for the empty string it returns two empty lists, and neither returned
list contains a duplicate entry. -/
theorem extract_entities_sound (text : String) :
    (extract_entities text).1 ⊆ medicationVocab ∧
    (extract_entities text).2 ⊆ symptomVocab ∧
    (∀ m ∈ (extract_entities text).1, matchesWholeWord m (pyLower text) = true) ∧
    (∀ s ∈ (extract_entities text).2, matchesWholeWord s (pyLower text) = true) ∧
    (extract_entities text).1.Nodup ∧
    (extract_entities text).2.Nodup ∧
    extract_entities "" = ([], []) := by
  rw [extract_entities_fst, extract_entities_snd]
  refine ⟨List.filter_subset' _, List.filter_subset' _, ?_, ?_, ?_, ?_, by decide⟩
  · intro m hm
    exact (List.mem_filter.mp hm).2
  · intro s hs
    exact (List.mem_filter.mp hs).2
  · exact List.Nodup.filter _ (by decide)
  · exact List.Nodup.filter _ (by decide)

/-- Witness for C1: on the concrete input `"take aspirin now"` the single
extracted medication `"aspirin"` indeed matches as a whole word. -/
theorem extract_entities_sound_witness :
    "aspirin" ∈ (extract_entities "take aspirin now").1 ∧
    matchesWholeWord "aspirin" (pyLower "take aspirin now") = true :=
  ⟨by decide,
   (extract_entities_sound "take aspirin now").2.2.1 "aspirin" (by decide)⟩

/-! ### C5: word-boundary behaviour on the spec's concrete examples -/

/-- C5.  Vocabulary terms embedded inside longer words do not match:
`extract_entities "aspirino 100mg"` yields no medication (nor symptom),
while `extract_entities "take aspirin now"` yields exactly `["aspirin"]`. -/
theorem extract_entities_word_boundary :
    extract_entities "aspirino 100mg" = ([], []) ∧
    extract_entities "take aspirin now" = (["aspirin"], []) := by
  decide

/-! ### C6: case-insensitivity -/

/-- C6.  `extract_entities` is case-insensitive: two inputs that agree after
lowercasing (in particular, inputs differing only in letter case) yield the
same extracted medication and symptom lists. -/
theorem extract_entities_case_insensitive (s t : String)
    (h : pyLower s = pyLower t) :
    extract_entities s = extract_entities t := by
  unfold extract_entities
  rw [h]

/-- Witness for C6: `"ASPIRIN"` and `"Aspirin"` lowercase identically, hence
extract identically (and both yield exactly the medication `"aspirin"`). -/
theorem extract_entities_case_insensitive_witness :
    pyLower "ASPIRIN" = pyLower "Aspirin" ∧
    extract_entities "ASPIRIN" = extract_entities "Aspirin" ∧
    extract_entities "ASPIRIN" = (["aspirin"], []) :=
  ⟨by decide,
   extract_entities_case_insensitive "ASPIRIN" "Aspirin" (by decide),
   by decide⟩

/-! ### C10: the two vocabularies share no term, so the outputs are disjoint -/

/-- C10.  For every input text, the medication list and the symptom list
returned by `extract_entities` are disjoint: no extracted entity is both a
medication mention and a symptom mention, because the two compiled-in
vocabularies share no term. -/
theorem extract_entities_disjoint (text : String) :
    ∀ x ∈ (extract_entities text).1, x ∉ (extract_entities text).2 := by
  intro x hx hx'
  rw [extract_entities_fst] at hx
  rw [extract_entities_snd] at hx'
  have h1 := List.mem_of_mem_filter hx
  have h2 := List.mem_of_mem_filter hx'
  fin_cases h1 <;> exact absurd h2 (by decide)

/-- Witness for C10: in `"aspirin nausea"` the extracted medication
`"aspirin"` is not among the extracted symptoms. -/
theorem extract_entities_disjoint_witness :
    "aspirin" ∈ (extract_entities "aspirin nausea").1 ∧
    "aspirin" ∉ (extract_entities "aspirin nausea").2 :=
  ⟨by decide, extract_entities_disjoint "aspirin nausea" "aspirin" (by decide)⟩

/-! ### C2: the cross-referencer computes the symptom/adverse-event intersection -/

/-- C2.  For every symptom list and non-empty adverse-event list, the
cross-referencer's `matches` is exactly the intersection of the two (an
element is in it iff it is a detected symptom and a reported adverse event);
the computation is pure and order-independent (permuting either input
permutes or preserves the result); a non-empty match is flagged as a
potential adverse effect with its matching terms, an empty one is reported
as no match with the full adverse-event list; on the spec's concrete
scenario (symptoms headache, nausea; aspirin events nausea, bleeding, rash)
the result is exactly nausea, flagged, and headache is not flagged. -/
theorem cross_reference_correct (symptoms events : List String)
    (hne : events ≠ []) :
    (∀ x, x ∈ crossRefMatches symptoms events ↔ x ∈ symptoms ∧ x ∈ events) ∧
    (∀ symptoms', symptoms.Perm symptoms' →
      (crossRefMatches symptoms events).Perm (crossRefMatches symptoms' events)) ∧
    (∀ events', events.Perm events' →
      crossRefMatches symptoms events = crossRefMatches symptoms events') ∧
    (crossRefMatches symptoms events ≠ [] →
      analyzeMed symptoms events
        = .adverseMatch (crossRefMatches symptoms events) events) ∧
    (crossRefMatches symptoms events = [] →
      analyzeMed symptoms events = .noMatch events) ∧
    crossRefMatches ["headache", "nausea"] ["nausea", "bleeding", "rash"]
      = ["nausea"] ∧
    "headache" ∉ crossRefMatches ["headache", "nausea"] ["nausea", "bleeding", "rash"] ∧
    analyzeMed ["headache", "nausea"] ["nausea", "bleeding", "rash"]
      = .adverseMatch ["nausea"] ["nausea", "bleeding", "rash"] := by
  refine ⟨?_, ?_, ?_, ?_, ?_, by decide, by decide, by decide⟩
  · intro x
    simp [crossRefMatches, List.mem_filter]
  · intro symptoms' hp
    exact hp.filter _
  · intro events' hp
    unfold crossRefMatches
    apply List.filter_congr
    intro x _
    simp [hp.mem_iff]
  · intro hmatch
    unfold analyzeMed
    rw [if_neg, if_neg]
    · simpa using hmatch
    · simpa using hne
  · intro hmatch
    unfold analyzeMed
    rw [if_neg, if_pos]
    · simpa using hmatch
    · simpa using hne

/-- Witness for C2: the spec's concrete scenario discharges the non-empty
hypothesis, and the intersection membership holds at `"nausea"`. -/
theorem cross_reference_correct_witness :
    "nausea" ∈ crossRefMatches ["headache", "nausea"] ["nausea", "bleeding", "rash"]
      ↔ ("nausea" ∈ ["headache", "nausea"]
          ∧ "nausea" ∈ ["nausea", "bleeding", "rash"]) :=
  (cross_reference_correct ["headache", "nausea"] ["nausea", "bleeding", "rash"]
    (by decide)).1 "nausea"

/-! ### C3: length bound and lowercase normalization of `get_fda_events` -/

theorem char_isUpper_iff (c : Char) :
    c.isUpper = true ↔ 65 ≤ c.toNat ∧ c.toNat ≤ 90 := by
  simp only [Char.isUpper, Bool.and_eq_true, decide_eq_true_eq, ge_iff_le,
    UInt32.le_def, BitVec.le_def]
  exact Iff.rfl

theorem char_toLower_isUpper (c : Char) : (Char.toLower c).isUpper = false := by
  have hdef : Char.toLower c
      = if c.toNat ≥ 65 ∧ c.toNat ≤ 90 then Char.ofNat (c.toNat + 32) else c := rfl
  rw [hdef]
  by_cases h : c.toNat ≥ 65 ∧ c.toNat ≤ 90
  · rw [if_pos h]
    obtain ⟨h1, h2⟩ := h
    generalize c.toNat = n at h1 h2 ⊢
    interval_cases n <;> decide
  · rw [if_neg h]
    cases hu : c.isUpper
    · rfl
    · exact absurd ((char_isUpper_iff c).mp hu) h

theorem pyLower_no_upper (s : String) : ∀ c ∈ (pyLower s).data, c.isUpper = false := by
  intro c hc
  have hc' : c ∈ s.data.map Char.toLower := hc
  obtain ⟨c0, _, rfl⟩ := List.mem_map.mp hc'
  exact char_toLower_isUpper c0

/-- Counterexample to C3 as stated: the code requests `limit = 5` but never
truncates the response it gets back, so a 200 response whose `results` array
has six entries makes `get_fda_events` return six reaction terms — more than
the configured limit of 5. -/
theorem fda_limit_counterexample :
    (get_fda_events "Aspirin"
      (fun _ => .response 200
        [⟨"a"⟩, ⟨"b"⟩, ⟨"c"⟩, ⟨"d"⟩, ⟨"e"⟩, ⟨"f"⟩])).1.length = 6 := by
  decide

/-- C3 (amended).  The request built by `get_fda_events` carries
`limit = 5`; for every remote response that honours the requested limit
(its `results` array has at most `limit` entries), the returned sequence has
length at most 5, and every element of it is the lowercased `term` of some
result item of the response — in particular it contains no uppercase
letter. -/
theorem fda_events_bounded (medication : String)
    (remote : FdaRequest → FdaOutcome)
    (hhonor : ∀ status results,
      remote (mkFdaRequest medication) = .response status results →
      results.length ≤ (mkFdaRequest medication).limit) :
    (get_fda_events medication remote).1.length ≤ 5 ∧
    ∀ x ∈ (get_fda_events medication remote).1,
      (∃ status results,
        remote (mkFdaRequest medication) = .response status results ∧
        ∃ item ∈ results, x = pyLower item.term) ∧
      ∀ c ∈ x.data, c.isUpper = false := by
  unfold get_fda_events
  cases houtcome : remote (mkFdaRequest medication) with
  | exception msg => simp [fdaEventsOf]
  | response status results =>
    by_cases hst : status = 200
    · subst hst
      have hred : fdaEventsOf (.response 200 results)
          = (results.map (fun item => pyLower item.term), none) := by
        simp [fdaEventsOf]
      rw [hred]
      constructor
      · rw [List.length_map]
        exact hhonor 200 results houtcome
      · intro x hx
        obtain ⟨item, hitem, rfl⟩ := List.mem_map.mp hx
        exact ⟨⟨200, results, rfl, item, hitem, rfl⟩, pyLower_no_upper _⟩
    · have hred : fdaEventsOf (.response status results) = ([], none) := by
        simp [fdaEventsOf, hst]
      rw [hred]
      simp

/-- Witness for C3 (amended): a concrete remote answering one result item
honours the limit, and the returned list indeed has length at most 5. -/
theorem fda_events_bounded_witness :
    (get_fda_events "Aspirin"
      (fun _ => FdaOutcome.response 200 [⟨"Nausea"⟩])).1.length ≤ 5 :=
  (fda_events_bounded "Aspirin" (fun _ => .response 200 [⟨"Nausea"⟩])
    (fun status results h => by
      injection h with h1 h2
      subst h1
      subst h2
      decide)).1

/-! ### C4: failure policy of `get_fda_events` -/

theorem mkFdaRequest_inj {a b : String} (h : mkFdaRequest a = mkFdaRequest b) :
    a = b := by
  have hs := congrArg FdaRequest.search h
  simp only [mkFdaRequest] at hs
  have hd := congrArg String.data hs
  simp only [String.data_append] at hd
  exact String.ext (List.append_cancel_left (List.append_cancel_right hd))

/-- Counterexample to C4 as stated: on a non-200 status the code takes the
bare `return []` on src/app.py line 58, which calls no `st.error`; so a 404
response yields the empty list with **no** surfaced warning (second
component `none`), while the claim says a non-200 status surfaces a
warning. -/
theorem fda_failure_counterexample :
    get_fda_events "Aspirin" (fun _ => .response 404 []) = ([], none) := by
  decide

/-- C4 (amended).  If the remote call raises any exception, `get_fda_events`
returns the empty list and surfaces a warning; if it returns a non-200
status, it returns the empty list silently.  It never propagates an
exception (it is a total function of the outcome) and never retries (the
model consumes exactly one outcome per call); and a remote whose behaviour
differs only on one medication's request leaves every other medication's
lookup unchanged. -/
theorem fda_failure_policy (medication e : String) (status : Nat)
    (results : List FdaItem) (hst : status ≠ 200)
    (failing : String) (remote remote' : FdaRequest → FdaOutcome)
    (hagree : ∀ r, r ≠ mkFdaRequest failing → remote r = remote' r) :
    get_fda_events medication (fun _ => .exception e)
      = ([], some ("FDA API Error: " ++ e)) ∧
    get_fda_events medication (fun _ => .response status results) = ([], none) ∧
    (∀ med', med' ≠ failing →
      get_fda_events med' remote = get_fda_events med' remote') := by
  refine ⟨rfl, ?_, ?_⟩
  · unfold get_fda_events fdaEventsOf
    simp [hst]
  · intro med' hne
    unfold get_fda_events
    rw [hagree _ (fun hcontra => hne (mkFdaRequest_inj hcontra))]

/-- Witness for C4 (amended): a remote that raises a timeout yields the
empty list plus the surfaced `FDA API Error` warning. -/
theorem fda_failure_policy_witness :
    get_fda_events "Aspirin" (fun _ => FdaOutcome.exception "timeout")
      = ([], some ("FDA API Error: " ++ "timeout")) :=
  (fda_failure_policy "Aspirin" "timeout" 404 [] (by decide) "Warfarin"
    (fun _ => .exception "timeout") (fun _ => .exception "timeout")
    (fun _ _ => rfl)).1

/-! ### C7: empty adverse-event list reports "no data" -/

/-- C7.  A medication whose adverse-event lookup returns the empty list is
reported as `noData`; the `noData` report is produced without consulting the
symptom list at all (the intersection is skipped), and the analysis is a
total function, so no error is raised. -/
theorem no_data_report (symptoms symptoms' : List String) (text : String)
    (remote : FdaRequest → FdaOutcome) (med : String)
    (hmed : med ∈ (extract_entities text).1)
    (hempty : (get_fda_events (pyCapitalize med) remote).1 = []) :
    analyzeMed symptoms [] = .noData ∧
    analyzeMed symptoms [] = analyzeMed symptoms' [] ∧
    (pyCapitalize med, MedReport.noData)
      ∈ analysisReports (analyze text remote) := by
  refine ⟨rfl, rfl, ?_⟩
  have hne : ((extract_entities text).1).isEmpty = false := by
    rw [List.isEmpty_eq_false]
    intro hnil
    rw [hnil] at hmed
    exact absurd hmed (List.not_mem_nil _)
  show (pyCapitalize med, MedReport.noData) ∈ analysisReports
    (if ((extract_entities text).1).isEmpty then AnalysisResult.noMedications
     else .results ((extract_entities text).1.map (fun med0 =>
       (pyCapitalize med0,
        analyzeMed (extract_entities text).2
          (get_fda_events (pyCapitalize med0) remote).1))))
  rw [hne]
  show (pyCapitalize med, MedReport.noData)
    ∈ (extract_entities text).1.map (fun med0 =>
        (pyCapitalize med0,
         analyzeMed (extract_entities text).2
           (get_fda_events (pyCapitalize med0) remote).1))
  have hmem := List.mem_map_of_mem (fun med0 =>
    (pyCapitalize med0,
     analyzeMed (extract_entities text).2
       (get_fda_events (pyCapitalize med0) remote).1)) hmed
  simp only at hmem
  rw [hempty] at hmem
  exact hmem

/-- Witness for C7: text `"aspirin"` with an unreachable remote yields the
report `("Aspirin", noData)`. -/
theorem no_data_report_witness :
    ("Aspirin", MedReport.noData)
      ∈ analysisReports
          (analyze "aspirin" (fun _ => FdaOutcome.exception "down")) := by
  have h := (no_data_report [] ["x"] "aspirin"
    (fun _ => .exception "down") "aspirin" (by decide) (by decide)).2.2
  exact h

/-! ### C8: no detected medication means no lookups and a distinct report -/

/-- C8.  When `extract_entities` finds no vocabulary medication (even if it
finds symptoms), the analysis reports the distinct `noMedications` condition
— distinct from every per-medication `results` outcome — and performs no
adverse-event lookup at all: the outcome is independent of the remote. -/
theorem no_medications_report (text : String)
    (remote remote' : FdaRequest → FdaOutcome)
    (hnomeds : (extract_entities text).1 = []) :
    analyze text remote = .noMedications ∧
    analyze text remote = analyze text remote' ∧
    ∀ reports, AnalysisResult.noMedications ≠ AnalysisResult.results reports := by
  have h1 : ∀ r : FdaRequest → FdaOutcome, analyze text r = .noMedications := by
    intro r
    show (if ((extract_entities text).1).isEmpty then AnalysisResult.noMedications
      else .results ((extract_entities text).1.map (fun med0 =>
        (pyCapitalize med0,
         analyzeMed (extract_entities text).2
           (get_fda_events (pyCapitalize med0) r).1)))) = .noMedications
    rw [hnomeds]
    rfl
  refine ⟨h1 remote, (h1 remote).trans (h1 remote').symm, ?_⟩
  intro reports hcontra
  exact AnalysisResult.noConfusion hcontra

/-- Witness for C8: `"nausea and headache"` contains symptoms but no
medication; its analysis is `noMedications` under a failing remote. -/
theorem no_medications_report_witness :
    (extract_entities "nausea and headache").1 = [] ∧
    (extract_entities "nausea and headache").2 ≠ [] ∧
    analyze "nausea and headache" (fun _ => FdaOutcome.exception "down")
      = AnalysisResult.noMedications :=
  ⟨by decide, by decide,
   (no_medications_report "nausea and headache"
     (fun _ => .exception "down") (fun _ => .exception "down") (by decide)).1⟩

/-! ### C9: transcription concatenates the non-empty recognition texts -/

theorem joinTranscripts_eq (results : List RecResult) :
    joinTranscripts results = String.intercalate " " (nonEmptyTexts results) := by
  unfold joinTranscripts nonEmptyTexts
  congr 1
  induction results with
  | nil => rfl
  | cons r rs ih =>
    simp only [ne_eq, decide_not] at ih
    cases htext : r.text with
    | none =>
      simp [List.filter_cons, List.filterMap_cons, htext, ih]
    | some s =>
      by_cases hs : s = ""
      · subst hs
        simp [List.filter_cons, List.filterMap_cons, htext, ih]
      · simp [List.filter_cons, List.filterMap_cons, htext, hs, ih]

/-- C9.  `transcribe_audio` returns, for every successfully decoded and
recognized input, the single string obtained by joining with spaces exactly
the non-empty `"text"` fields of the successive partial/final recognition
results; on any decoding or recognition error it returns the empty string
together with a surfaced diagnostic instead of raising, so the pipeline
continues. -/
theorem transcribe_audio_spec (results : List RecResult) (e : String) :
    transcribe_audio (.ok results)
      = (String.intercalate " " (nonEmptyTexts results), none) ∧
    transcribe_audio (.error e)
      = ("", some ("Transcription failed: " ++ e)) := by
  refine ⟨?_, rfl⟩
  show (joinTranscripts results, none) = _
  rw [joinTranscripts_eq]

end App
